import Mathlib

/-!
Shallow embedding of `src/ex2/nexus_pipeline.py` (the staged
pipeline / adapter / manager design of the Python_Module_05 repository).

Python values flowing through the pipeline are modelled by the
inductive `Value` below: Python `None`, `bool`, `int`, `float`,
`str`, `list`, `dict` (insertion-ordered association list with
`str` keys, as every dict built by this program has), and `tuple`
(which the program produces in `OutputStage.format_output`).
Python `float`s are modelled as exact rationals: every float literal
appearing in the program and its demo data is an exact decimal, and
no claim under study depends on binary rounding.
-/

inductive Value where
  | none : Value
  | bool (b : Bool) : Value
  | int (n : Int) : Value
  | float (q : Rat) : Value
  | str (s : String) : Value
  | list (xs : List Value) : Value
  | dict (kvs : List (String × Value)) : Value
  | tuple (xs : List Value) : Value

/-- Characters removed by Python's `str.strip()` (ASCII whitespace;
the program never feeds it non-ASCII whitespace). -/
def isPySpace (c : Char) : Bool :=
  c = ' ' || c = '\t' || c = '\n' || c = '\r' || c = '\x0b' || c = '\x0c'

/-- Python `str.upper()` restricted to ASCII case mapping, which is
all this program's data exercises. -/
def pyUpper (s : String) : String :=
  String.mk (s.toList.map Char.toUpper)

namespace InputStage

/-- `InputStage.validate_data` (nexus_pipeline.py lines 58-73):
data is invalid when it is `None`, a string that strips to empty,
an empty list, or an empty dict; everything else is valid. -/
def validate_data : Value → Bool
  | .none => false
  | .str s => !(s.toList.all isPySpace)
  | .list xs => !xs.isEmpty
  | .dict kvs => !kvs.isEmpty
  | _ => true

/-- `InputStage.process` (lines 43-56): on invalid data return the
error dict, otherwise wrap the data in a validation map.  The
`except` clause is dead code: `validate_data` and dict construction
cannot raise. -/
def process (data : Value) : Value :=
  if validate_data data then
    .dict [("input", data), ("validation", .bool true), ("stage", .str "input")]
  else
    .dict [("error", .str "Invalid data"), ("stage", .str "input")]

end InputStage

/-- Exact decimal rendering of a rational whose denominator divides a
power of ten: this is Python's `repr` on the exact-decimal floats the
program manipulates (`repr(23.5) = "23.5"`, `repr(42.0) = "42.0"`). -/
def floatStr (q : Rat) : String :=
  let k? := (List.range 65).find? (fun k => 10 ^ k % q.den == 0)
  match k? with
  | some k =>
      let sign := if q.num < 0 then "-" else ""
      let n := q.num.natAbs
      let scaled := n * 10 ^ k / q.den
      let ip := scaled / 10 ^ k
      let fp := scaled % 10 ^ k
      if k = 0 then sign ++ toString ip ++ ".0"
      else
        let fs := toString fp
        let pad := String.mk (List.replicate (k - fs.length) '0')
        sign ++ toString ip ++ "." ++ pad ++ fs
  | none => toString q.num ++ "/" ++ toString q.den

mutual

/-- Python `repr` of a Value (quote escaping inside string literals is
not modelled; no string the program renders contains a quote). -/
def pyRepr : Value → String
  | .none => "None"
  | .bool true => "True"
  | .bool false => "False"
  | .int n => toString n
  | .float q => floatStr q
  | .str s => "\x27" ++ s ++ "\x27"
  | .list xs => "[" ++ pyReprJoin xs ++ "]"
  | .tuple [x] => "(" ++ pyRepr x ++ ",)"
  | .tuple xs => "(" ++ pyReprJoin xs ++ ")"
  | .dict kvs => "\x7b" ++ pyReprPairs kvs ++ "\x7d"

/-- comma-joined `repr`s of list elements -/
def pyReprJoin : List Value → String
  | [] => ""
  | [x] => pyRepr x
  | x :: xs => pyRepr x ++ ", " ++ pyReprJoin xs

/-- comma-joined `'key': repr(value)` pairs of a dict -/
def pyReprPairs : List (String × Value) → String
  | [] => ""
  | [kv] => "\x27" ++ kv.1 ++ "\x27: " ++ pyRepr kv.2
  | kv :: kvs => "\x27" ++ kv.1 ++ "\x27: " ++ pyRepr kv.2 ++ ", " ++ pyReprPairs kvs

end

/-- Python `str` of a Value: the string itself for `str`, `repr`
otherwise. -/
def pyStr : Value → String
  | .str s => s
  | v => pyRepr v

/-- First value stored under key `k`, or `dflt` when absent: Python's
`data.get(k) if k in data else dflt` (dicts built by this program
never repeat a key, so first-match lookup is Python dict lookup). -/
def dictGetD (kvs : List (String × Value)) (k : String) (dflt : Value) : Value :=
  match kvs.find? (fun kv => kv.1 == k) with
  | some kv => kv.2
  | Option.none => dflt

/-- Python type name of a Value, as it appears in TypeError messages. -/
def pyTypeName : Value → String
  | .none => "NoneType"
  | .bool _ => "bool"
  | .int _ => "int"
  | .float _ => "float"
  | .str _ => "str"
  | .list _ => "list"
  | .dict _ => "dict"
  | .tuple _ => "tuple"

/-- Python iteration `for k in v`: elements for lists/tuples,
characters for strings, keys for dicts, TypeError otherwise. -/
def pyIterElems : Value → Option (List Value)
  | .list xs => some xs
  | .tuple xs => some xs
  | .str s => some (s.toList.map (fun c => .str (String.mk [c])))
  | .dict kvs => some (kvs.map (fun kv => Value.str kv.1))
  | _ => Option.none

namespace TransformStage

/-- `TransformStage.extract_data` (lines 102-114): unwrap the
`"input"` field of a dict when present, else pass the value through. -/
def extract_data : Value → Value
  | .dict kvs =>
      match kvs.find? (fun kv => kv.1 == "input") with
      | some kv => kv.2
      | Option.none => .dict kvs
  | v => v

/-- `TransformStage.transform_data` (lines 116-158): type-dispatched
enrichment.  Python's `isinstance(data, (int, float))` is true for
`bool` (bool subclasses int), so booleans take the numeric branch
with `True*2 = 2` and `True**2 = 1`; only `None` and tuples reach the
pass-through arm. -/
def transform_data : Value → Value
  | .str s =>
      .dict [("original", .str s), ("uppercase", .str (pyUpper s)),
             ("length", .int s.length), ("type", .str "string")]
  | .bool b =>
      .dict [("original", .bool b),
             ("doubled", .int (2 * (if b then 1 else 0))),
             ("squared", .int (if b then 1 else 0)),
             ("type", .str "numeric")]
  | .int n =>
      .dict [("original", .int n), ("doubled", .int (n * 2)),
             ("squared", .int (n ^ 2)), ("type", .str "numeric")]
  | .float q =>
      .dict [("original", .float q), ("doubled", .float (q * 2)),
             ("squared", .float (q ^ 2)), ("type", .str "numeric")]
  | .list xs =>
      .dict [("original", .list xs), ("count", .int xs.length),
             ("first", xs.headD .none), ("last", xs.getLastD .none),
             ("type", .str "list")]
  | .dict kvs =>
      .dict [("original", .dict kvs),
             ("keys", .list (kvs.map (fun kv => Value.str kv.1))),
             ("key_count", .int kvs.length), ("type", .str "dict")]
  | v => v

/-- `TransformStage.process` (lines 79-100): extract, then enrich and
wrap.  `extract_data` and `transform_data` are total, so the `except`
clause is dead code. -/
def process (data : Value) : Value :=
  match extract_data data with
  | .none => .dict [("error", .str "Failed to extract data"), ("stage", .str "transform")]
  | e => .dict [("input", data), ("transformed", transform_data e),
                ("enriched", .bool true), ("stage", .str "transform")]

end TransformStage

namespace OutputStage

/-- `OutputStage.extract_data` (lines 180-187): unwrap the
`"transformed"` field of a dict when present, else pass through. -/
def extract_data : Value → Value
  | .dict kvs =>
      match kvs.find? (fun kv => kv.1 == "transformed") with
      | some kv => kv.2
      | Option.none => .dict kvs
  | v => v

/-- `OutputStage.format_output` (lines 189-217).  The `"string"` and
`"list"` branches return a PAIR of strings: the parenthesised return
expression contains a comma, so Python builds a 2-tuple, not one
string.  Iterating a non-iterable `"keys"` value raises a TypeError,
modelled as the `Except.error` case (caught by `process`). -/
def format_output (data : Value) : Except String Value :=
  match data with
  | .dict kvs =>
      match dictGetD kvs "type" .none with
      | .str "string" =>
          let original := dictGetD kvs "original" (.str "")
          let length := dictGetD kvs "length" (.int 0)
          .ok (.tuple [.str ("Processed text: " ++ pyStr length),
                       .str ("characters, content: \x27" ++ pyStr original ++ "\x27")])
      | .str "numeric" =>
          let original := dictGetD kvs "original" (.int 0)
          let doubled := dictGetD kvs "doubled" (.int 0)
          .ok (.str ("Processed number: " ++ pyStr original ++
                     " (doubled: " ++ pyStr doubled ++ ")"))
      | .str "list" =>
          let count := dictGetD kvs "count" (.int 0)
          let first := dictGetD kvs "first" .none
          let lastv := dictGetD kvs "last" .none
          .ok (.tuple [.str ("Processed list: " ++ pyStr count),
                       .str ("items (first: " ++ pyStr first ++
                             ", last: " ++ pyStr lastv ++ ")")])
      | .str "dict" =>
          let key_count := dictGetD kvs "key_count" (.int 0)
          let keys := dictGetD kvs "keys" (.list [])
          match pyIterElems keys with
          | some elems =>
              .ok (.str ("Processed dict: " ++ pyStr key_count ++ " keys (" ++
                         String.intercalate ", " (elems.map pyStr) ++ ")"))
          | Option.none =>
              .error ("\x27" ++ pyTypeName keys ++ "\x27 object is not iterable")
      | _ => .ok (.str ("Output: " ++ pyStr (.dict kvs)))
  | v => .ok (.str ("Output: " ++ pyStr v))

/-- `OutputStage.process` (lines 164-178): extract; `None` yields the
fixed error string; otherwise format, catching the TypeError. -/
def process (data : Value) : Value :=
  match extract_data data with
  | .none => .str "Error: No data to format"
  | e =>
      match format_output e with
      | .ok v => v
      | .error msg => .str ("Output stage error: " ++ msg)

end OutputStage

/-- `ProcessingPipeline.execute_pipeline` (lines 28-37): thread the
value through every stage in order.  All three concrete stages are
total (each catches its own exceptions), so the `except` arm that
would wrap a raised exception is dead code for every pipeline built
by this program. -/
def execute_pipeline (stages : List (Value → Value)) (data : Value) : Value :=
  stages.foldl (fun cur stage => stage cur) data

namespace JSONAdapter

/-- Stages auto-registered by `JSONAdapter.__init__` (lines 223-227). -/
def stages : List (Value → Value) :=
  [InputStage.process, TransformStage.process, OutputStage.process]

/-- `JSONAdapter.process` (lines 229-236): delegate to the pipeline
engine (the print and the dead `except` differ only in labelling). -/
def process (data : Value) : Value :=
  execute_pipeline stages data

end JSONAdapter

namespace CSVAdapter

/-- Stages auto-registered by `CSVAdapter.__init__` (lines 242-246). -/
def stages : List (Value → Value) :=
  [InputStage.process, TransformStage.process, OutputStage.process]

/-- `CSVAdapter.process` (lines 248-255). -/
def process (data : Value) : Value :=
  execute_pipeline stages data

end CSVAdapter

namespace StreamAdapter

/-- Stages auto-registered by `StreamAdapter.__init__` (lines 261-265). -/
def stages : List (Value → Value) :=
  [InputStage.process, TransformStage.process, OutputStage.process]

/-- `StreamAdapter.process` (lines 267-274). -/
def process (data : Value) : Value :=
  execute_pipeline stages data

end StreamAdapter

/-- A registered pipeline as the manager sees it: its identifier and
its (virtually dispatched) `process` method. -/
structure PipelineObj where
  pipeline_id : String
  process : Value → Value

namespace NexusManager

/-- `NexusManager.add_pipeline` (lines 286-289): append. -/
def add_pipeline (ps : List PipelineObj) (p : PipelineObj) : List PipelineObj :=
  ps ++ [p]

/-- `NexusManager.process_data` (lines 291-299): linear scan in
registration order, delegate to the first identifier match, or report
not-found.  The `except` arm is unreachable for total `process`
methods. -/
def process_data : List PipelineObj → String → Value → Value
  | [], pid, _ => .str ("Error: Pipeline " ++ pid ++ " not found")
  | p :: ps, pid, d =>
      if p.pipeline_id == pid then p.process d
      else process_data ps pid d

/-- `NexusManager.get_pipeline_count` (lines 301-303). -/
def get_pipeline_count (ps : List PipelineObj) : Nat :=
  ps.length

end NexusManager

/-- A stage Error as this program represents it: a dict carrying an
`"error"` key (always alongside the originating `"stage"` tag). -/
def isStageError : Value → Bool
  | .dict kvs => kvs.any (fun kv => kv.1 == "error")
  | _ => false

/-!
Stateful reading of the pipeline objects, for the determinism claim.
A `ProcessingPipeline`'s mutable attributes are exactly
`pipeline_id` and `stages` (set in `__init__`, lines 15-17, and
rebound only by `add_stage`, line 21); the three concrete stage
classes declare no instance attributes at all.  `process` /
`execute_pipeline` only read `self.pipeline_id` and `self.stages`
and assign no attribute, so the faithful state-passing translation
returns the object state unchanged.
-/

structure PipelineState where
  pipeline_id : String
  stages : List (Value → Value)

/-- `ProcessingPipeline.add_stage` (lines 19-21): rebind `self.stages`
to `self.stages + [stage]`. -/
def add_stageS (st : PipelineState) (s : Value → Value) : PipelineState :=
  { st with stages := st.stages ++ [s] }

/-- Adapter `process` / `execute_pipeline` with the object state
threaded explicitly: the result is computed from `self.stages`, and
the state is returned as the method body left it (no attribute is
assigned anywhere in the call). -/
def processS (st : PipelineState) (d : Value) : Value × PipelineState :=
  (execute_pipeline st.stages d, st)

/-- `NexusManager.process_data` with the manager's `pipelines` state
threaded explicitly: the scan reads the list, delegates to the found
pipeline's `process` (whose post-state is put back in place), and
assigns nothing. -/
def process_dataS : List PipelineState → String → Value → Value × List PipelineState
  | [], pid, _ => (.str ("Error: Pipeline " ++ pid ++ " not found"), [])
  | p :: ps, pid, d =>
      if p.pipeline_id == pid then
        ((processS p d).1, (processS p d).2 :: ps)
      else
        ((process_dataS ps pid d).1, p :: (process_dataS ps pid d).2)

/-! ## Helper lemmas -/

theorem validate_data_eq_false_iff (v : Value) :
    InputStage.validate_data v = false ↔
      (v = .none ∨ (∃ s, v = .str s ∧ s.toList.all isPySpace) ∨
        v = .list [] ∨ v = .dict []) := by
  cases v <;> simp [InputStage.validate_data, List.isEmpty_iff]

/-! ## Claims -/

/-- C1, counterexample.  The claim says that when stage k returns an
Error the pipeline stops and that Error is the pipeline's result.  On
input `""`, stage 0 (InputStage) returns the Error dict, yet the
three-stage pipeline's result is the string the later stages produce
from that dict — not the Error. -/
theorem execute_pipeline_fail_fast_counterexample :
    InputStage.process (.str "")
      = .dict [("error", .str "Invalid data"), ("stage", .str "input")]
    ∧ execute_pipeline [InputStage.process, TransformStage.process, OutputStage.process] (.str "")
        = .str "Processed dict: 2 keys (error, stage)"
    ∧ execute_pipeline [InputStage.process, TransformStage.process, OutputStage.process] (.str "")
        ≠ .dict [("error", .str "Invalid data"), ("stage", .str "input")] :=
  ⟨rfl, rfl, fun h => Value.noConfusion h⟩

/-- C1, amended.  `execute_pipeline` never inspects a stage's result:
when the stage after a prefix of stages returns an Error value, the
remaining stages are still invoked, with that Error dict as ordinary
input, and the pipeline's result is whatever they produce from it. -/
theorem execute_pipeline_continues_after_error
    (pre post : List (Value → Value)) (f : Value → Value) (d : Value)
    (_h : isStageError (f (execute_pipeline pre d)) = true) :
    execute_pipeline (pre ++ f :: post) d
      = execute_pipeline post (f (execute_pipeline pre d)) := by
  simp [execute_pipeline, List.foldl_append]

/-- Witness for C1's amended theorem at the concrete failing run:
InputStage errors on `""` and the remaining stages still run. -/
theorem execute_pipeline_continues_after_error_witness :
    isStageError (InputStage.process (execute_pipeline [] (.str ""))) = true
    ∧ execute_pipeline
        ([] ++ InputStage.process :: [TransformStage.process, OutputStage.process]) (.str "")
        = execute_pipeline [TransformStage.process, OutputStage.process]
            (InputStage.process (execute_pipeline [] (.str ""))) :=
  ⟨rfl, execute_pipeline_continues_after_error
          [] [TransformStage.process, OutputStage.process] InputStage.process (.str "") rfl⟩

/-- C2.  The parenthesised return expressions of the `"string"` and
`"list"` branches of `OutputStage.format_output` contain a comma, so
the function returns a 2-tuple of strings, not the single formatted
string the claim (and the function's own `-> str` annotation)
describe.  Evaluated here at the enrichment maps `transform_data`
produces for `"hi"` and `[7]`. -/
theorem format_output_returns_pair_code_bug :
    OutputStage.format_output
        (.dict [("original", .str "hi"), ("uppercase", .str "HI"),
                ("length", .int 2), ("type", .str "string")])
      = .ok (.tuple [.str "Processed text: 2",
                     .str "characters, content: \x27hi\x27"])
    ∧ OutputStage.format_output
        (.dict [("original", .list [.int 7]), ("count", .int 1),
                ("first", .int 7), ("last", .int 7), ("type", .str "list")])
      = .ok (.tuple [.str "Processed list: 1",
                     .str "items (first: 7, last: 7)"]) :=
  ⟨rfl, rfl⟩

/-- C3, counterexample.  The claim says the pipeline's result on `""`
is the Error dict `{"error": "Invalid data", "stage": "input"}`; it
is not. -/
theorem empty_text_pipeline_counterexample :
    JSONAdapter.process (.str "")
      ≠ .dict [("error", .str "Invalid data"), ("stage", .str "input")] :=
  fun h => Value.noConfusion h

/-- C3, amended.  On input `""` InputStage does fail and return the
Error dict, but execution continues: the Transform and Output stages
process that dict as ordinary data and the pipeline's result is
`"Processed dict: 2 keys (error, stage)"`. -/
theorem empty_text_pipeline_amended :
    InputStage.process (.str "")
      = .dict [("error", .str "Invalid data"), ("stage", .str "input")]
    ∧ JSONAdapter.process (.str "")
        = .str "Processed dict: 2 keys (error, stage)" :=
  ⟨rfl, rfl⟩

/-- C4, counterexample.  `" "` is a one-character (non-empty) text,
yet `InputStage` rejects it: `validate_data` strips whitespace before
testing emptiness, so whitespace-only texts also map to the Error. -/
theorem input_validation_whitespace_counterexample :
    (" " : String).length = 1
    ∧ InputStage.process (.str " ")
        = .dict [("error", .str "Invalid data"), ("stage", .str "input")] :=
  ⟨rfl, rfl⟩

/-- C4, amended.  `InputStage.process` returns the Error dict exactly
when the input is null, a text consisting solely of whitespace (which
includes the empty text), an empty list, or an empty dict; every
other input is wrapped unchanged in the validation map. -/
theorem inputStage_process_characterization (v : Value) :
    (InputStage.process v
        = .dict [("error", .str "Invalid data"), ("stage", .str "input")]
      ↔ (v = .none ∨ (∃ s, v = .str s ∧ s.toList.all isPySpace) ∨
          v = .list [] ∨ v = .dict []))
    ∧ (¬(v = .none ∨ (∃ s, v = .str s ∧ s.toList.all isPySpace) ∨
          v = .list [] ∨ v = .dict []) →
        InputStage.process v
          = .dict [("input", v), ("validation", .bool true), ("stage", .str "input")]) := by
  constructor
  · rw [← validate_data_eq_false_iff]
    cases hv : InputStage.validate_data v <;> simp [InputStage.process, hv]
  · intro hne
    rw [← validate_data_eq_false_iff] at hne
    simp only [Bool.not_eq_false] at hne
    simp [InputStage.process, hne]

/-- Witness for C4's amended theorem: `42` is valid and gets wrapped. -/
theorem inputStage_process_characterization_witness :
    InputStage.process (.int 42)
      = .dict [("input", .int 42), ("validation", .bool true), ("stage", .str "input")] :=
  (inputStage_process_characterization (.int 42)).2 (by simp)

/-- C5, counterexample.  A boolean is not returned unchanged:
`isinstance(True, int)` holds in Python, so `True` takes the numeric
branch and is enriched with `doubled = 2`, `squared = 1` and the type
tag `"numeric"`. -/
theorem transform_data_bool_counterexample :
    TransformStage.transform_data (.bool true)
      = .dict [("original", .bool true), ("doubled", .int 2),
               ("squared", .int 1), ("type", .str "numeric")]
    ∧ TransformStage.transform_data (.bool true) ≠ .bool true :=
  ⟨rfl, fun h => Value.noConfusion h⟩

/-- C5, amended.  Only values that match none of the isinstance
tests — null (and the tuple shape the program itself produces) — pass
through `transform_data` unchanged with no type tag; booleans instead
take the numeric branch. -/
theorem transform_data_passthrough_amended (v : Value) :
    ((v = .none ∨ ∃ xs, v = .tuple xs) → TransformStage.transform_data v = v)
    ∧ (∀ b, TransformStage.transform_data (.bool b)
        = .dict [("original", .bool b),
                 ("doubled", .int (2 * (if b then 1 else 0))),
                 ("squared", .int (if b then 1 else 0)),
                 ("type", .str "numeric")]) := by
  constructor
  · rintro (rfl | ⟨xs, rfl⟩) <;> rfl
  · intro b; cases b <;> rfl

/-- Witness for C5's amended theorem: null passes through unchanged. -/
theorem transform_data_passthrough_amended_witness :
    TransformStage.transform_data .none = .none :=
  (transform_data_passthrough_amended .none).1 (Or.inl rfl)

/-- C6.  The sensor reading dict runs Input → Transform → Output to
exactly the claimed summary string. -/
theorem sensor_dict_end_to_end :
    JSONAdapter.process
        (.dict [("sensor", .str "temp"), ("value", .float (23.5 : Rat)),
                ("unit", .str "C")])
      = .str "Processed dict: 3 keys (sensor, value, unit)" :=
  rfl

/-- C7.  Manager dispatch scans registered pipelines in registration
order: when no identifier matches it returns the not-found string,
and when the registry splits as `pre ++ p :: post` with `p` the first
match, dispatch delegates to `p.process` — so a later duplicate of an
identifier is never reachable. -/
theorem nexus_process_data_first_match_or_not_found
    (ps : List PipelineObj) (pid : String) (d : Value) :
    ((∀ p ∈ ps, p.pipeline_id ≠ pid) →
      NexusManager.process_data ps pid d
        = .str ("Error: Pipeline " ++ pid ++ " not found"))
    ∧ (∀ pre (p : PipelineObj) post, ps = pre ++ p :: post → p.pipeline_id = pid →
        (∀ q ∈ pre, q.pipeline_id ≠ pid) →
        NexusManager.process_data ps pid d = p.process d) := by
  induction ps with
  | nil =>
      refine ⟨fun _ => rfl, ?_⟩
      intro pre p post hps _ _
      exact absurd hps (by simp)
  | cons hd tl ih =>
      constructor
      · intro hall
        have hne : hd.pipeline_id ≠ pid := hall hd (by simp)
        have hbeq : (hd.pipeline_id == pid) = false := by
          simpa using hne
        simp only [NexusManager.process_data, hbeq, if_false, Bool.false_eq_true]
        exact ih.1 (fun p hp => hall p (List.mem_cons_of_mem _ hp))
      · intro pre p post hps hpid hpre
        cases pre with
        | nil =>
            simp only [List.nil_append, List.cons.injEq] at hps
            obtain ⟨rfl, rfl⟩ := hps
            have hbeq : (hd.pipeline_id == pid) = true := by simpa using hpid
            simp [NexusManager.process_data, hbeq]
        | cons q pre' =>
            simp only [List.cons_append, List.cons.injEq] at hps
            obtain ⟨rfl, rfl⟩ := hps
            have hne : hd.pipeline_id ≠ pid := hpre hd (by simp)
            have hbeq : (hd.pipeline_id == pid) = false := by simpa using hne
            simp only [NexusManager.process_data, hbeq, if_false, Bool.false_eq_true]
            exact ih.2 pre' p post rfl hpid
              (fun q' hq' => hpre q' (List.mem_cons_of_mem _ hq'))

/-- Witness for C7: with two pipelines both registered under `"A"`,
dispatch on `"A"` reaches only the first, and dispatch on `"B"`
reports not-found. -/
theorem nexus_process_data_witness :
    NexusManager.process_data
        [⟨"A", fun _ => .str "first"⟩, ⟨"A", fun _ => .str "second"⟩] "A" .none
      = .str "first"
    ∧ NexusManager.process_data
        [⟨"A", fun _ => .str "first"⟩, ⟨"A", fun _ => .str "second"⟩] "B" .none
      = .str "Error: Pipeline B not found" := by
  constructor
  · exact (nexus_process_data_first_match_or_not_found
        [⟨"A", fun _ => .str "first"⟩, ⟨"A", fun _ => .str "second"⟩] "A" .none).2
      [] ⟨"A", fun _ => .str "first"⟩ [⟨"A", fun _ => .str "second"⟩] rfl rfl
      (by intro q hq; exact absurd hq (List.not_mem_nil q))
  · exact (nexus_process_data_first_match_or_not_found
        [⟨"A", fun _ => .str "first"⟩, ⟨"A", fun _ => .str "second"⟩] "B" .none).1
      (by
        intro p hp
        simp only [List.mem_cons, List.not_mem_nil, or_false] at hp
        rcases hp with rfl | rfl <;> decide)

/-- C8.  The three adapters register the same three stages in the
same order and their `process` delegates identically to the pipeline
engine, so they agree on every input. -/
theorem adapter_equivalence (x : Value) :
    JSONAdapter.process x = CSVAdapter.process x
    ∧ CSVAdapter.process x = StreamAdapter.process x :=
  ⟨rfl, rfl⟩

/-- C9, counterexample.  The empty text is empty extracted data, yet
`OutputStage` renders it through the generic fallback as
`"Output: "` instead of the claimed `"Error: No data to format"`:
the code only tests `is None`, not emptiness. -/
theorem output_empty_extracted_counterexample :
    OutputStage.extract_data (.str "") = .str ""
    ∧ OutputStage.process (.str "") = .str "Output: "
    ∧ OutputStage.process (.str "") ≠ .str "Error: No data to format" :=
  ⟨rfl, rfl, by
    simp [OutputStage.process, OutputStage.extract_data, OutputStage.format_output, pyStr]⟩

/-- C9, amended.  `OutputStage` returns `"Error: No data to format"`
when the extracted data is null; empty (but non-null) extracted
values fall through to the ordinary formatting paths. -/
theorem output_no_data_amended (d : Value)
    (h : OutputStage.extract_data d = .none) :
    OutputStage.process d = .str "Error: No data to format" := by
  simp [OutputStage.process, h]

/-- Witness for C9's amended theorem at null input. -/
theorem output_no_data_amended_witness :
    OutputStage.extract_data .none = .none
    ∧ OutputStage.process .none = .str "Error: No data to format" :=
  ⟨rfl, output_no_data_amended .none rfl⟩

/-- C10.  Pipeline `process` (and manager dispatch) leave the object
state — the identifier, the stage list, the registry — exactly as
they found it, so a second identical call returns the same result.
In the source no attribute is assigned outside `__init__` /
`add_stage`, which the state-passing translation reflects. -/
theorem process_stateless_deterministic (p : PipelineState) (v : Value) :
    ((processS p v).2 = p ∧ (processS ((processS p v).2) v).1 = (processS p v).1)
    ∧ ∀ (ms : List PipelineState) (pid : String),
        (process_dataS ms pid v).2 = ms
        ∧ (process_dataS (process_dataS ms pid v).2 pid v).1
            = (process_dataS ms pid v).1 := by
  refine ⟨⟨rfl, rfl⟩, ?_⟩
  have hstate : ∀ (ms : List PipelineState) (pid : String),
      (process_dataS ms pid v).2 = ms := by
    intro ms pid
    induction ms with
    | nil => rfl
    | cons hd tl ih =>
        cases h : hd.pipeline_id == pid <;>
          simp [process_dataS, h, ih, processS]
  intro ms pid
  exact ⟨hstate ms pid, by rw [hstate ms pid]⟩
